import Mathlib

/-!
# Engine dispatch of `src/EngineCreate.cpp`

A shallow embedding of the format-detection and engine-dispatch layer:
`IsSupportedFileType`, `CreateEngineForKind`, `CreateEngine` and the annotation
pass-through queries.

The engine constructors, the type sniffers and the MuPDF annotation functions live
in other translation units. They are taken as the fields of a `Collaborators`
record: the family predicates are functions of the kind tag, everything that may
touch the file system or the engine is a state transformer over a world `σ`.
Every call of a collaborator is recorded in the outcome, so that statements such as
"the content sniffer is never invoked" are statements about that record.
-/

namespace EngineCreate

/-! ## Data model -/

/-- Modelled from the spec: the declaration of `Kind` (utils/GuessFileType.h) is not
part of this file. A kind is a tag compared by identity; `null` is the null pointer
tested by `!kind`, the named constructors are the constants `EngineCreate.cpp`
compares against, and `other` stands for every further tag. -/
inductive Kind where
  | null
  | kindFilePDF
  | kindDirectory
  | kindFileChm
  | kindFileTxt
  | kindFileEpub
  | kindFileFb2
  | kindFileMobi
  | kindFilePalmDoc
  | kindFileHTML
  | kindEngineMupdf
  | other (tag : Nat)
  deriving DecidableEq, Repr

open Kind

/-- A `const WCHAR*`: `none` is the null pointer. -/
abbrev Path := Option String

/-- A `PasswordUI*` handle, only ever handed on to the MuPDF constructor. -/
abbrev PasswordUI := Option Nat

/-- What `EngineCreate.cpp` reads of an engine object: its `kind` tag. The `handle`
tells engine objects apart. -/
structure EngineBase where
  kind : Kind
  handle : Nat
  deriving DecidableEq, Repr

/-- An `EngineBase*`: `none` is `nullptr`. -/
abbrev EnginePtr := Option EngineBase

/-- An `Annotation*` handle. -/
abbrev Annotation := Nat

/-- An `AnnotationType` enumerator. -/
abbrev AnnotationType := Nat

/-- The point type handed to `EngineGetAnnotationAtPos` (two `float` coordinates); it is
passed on untouched. -/
structure PointF where
  x : Float
  y : Float

/-- The external functions whose calls are recorded. -/
inductive Call where
  | IsXpsDirectory
  | GuessFileTypeFromName
  | GuessFileTypeFromContent
  | CreateEngineMupdfFromFile
  | CreateEngineXpsFromFile
  | CreateEngineDjVuFromFile
  | CreateEngineImageFromFile
  | CreateEngineImageDirFromFile
  | CreateEngineCbxFromFile
  | CreateEnginePsFromFile
  | CreateEngineChmFromFile
  | CreateEngineTxtFromFile
  | CreateEngineEpubFromFile
  | CreateEngineFb2FromFile
  | CreateEngineMobiFromFile
  | CreateEnginePdbFromFile
  | EngineMupdfGetAnnotations
  | EngineMupdfHasUnsavedAnnotations
  | EngineMupdfGetAnnotationAtPos
  deriving DecidableEq, Repr

/-- The functions `EngineCreate.cpp` calls but does not define. -/
structure Collaborators (σ : Type) where
  IsEngineMupdfSupportedFileType : Kind → Bool
  IsEngineXpsSupportedFileType : Kind → Bool
  IsEngineDjVuSupportedFileType : Kind → Bool
  IsEngineImageSupportedFileType : Kind → Bool
  IsEngineCbxSupportedFileType : Kind → Bool
  IsEnginePsSupportedFileType : Kind → Bool
  IsXpsDirectory : Path → σ → Bool × σ
  GuessFileTypeFromName : Path → σ → Kind × σ
  GuessFileTypeFromContent : Path → σ → Kind × σ
  CreateEngineMupdfFromFile : Path → PasswordUI → σ → EnginePtr × σ
  CreateEngineXpsFromFile : Path → σ → EnginePtr × σ
  CreateEngineDjVuFromFile : Path → σ → EnginePtr × σ
  CreateEngineImageFromFile : Path → σ → EnginePtr × σ
  CreateEngineImageDirFromFile : Path → σ → EnginePtr × σ
  CreateEngineCbxFromFile : Path → σ → EnginePtr × σ
  CreateEnginePsFromFile : Path → σ → EnginePtr × σ
  CreateEngineChmFromFile : Path → σ → EnginePtr × σ
  CreateEngineTxtFromFile : Path → σ → EnginePtr × σ
  CreateEngineEpubFromFile : Path → σ → EnginePtr × σ
  CreateEngineFb2FromFile : Path → σ → EnginePtr × σ
  CreateEngineMobiFromFile : Path → σ → EnginePtr × σ
  CreateEnginePdbFromFile : Path → σ → EnginePtr × σ
  EngineMupdfGetAnnotations : EnginePtr → List Annotation → σ → List Annotation × σ
  EngineMupdfHasUnsavedAnnotations : EnginePtr → σ → Bool × σ
  EngineMupdfGetAnnotationAtPos :
    EnginePtr → Int → PointF → Option (List AnnotationType) → σ → Option Annotation × σ

/-! ## Effects: a world and a record of calls -/

/-- What a run produces: the returned value, the world afterwards and the external
calls made, oldest first. -/
structure Outcome (σ α : Type) where
  value : α
  world : σ
  calls : List Call

/-- A computation that may call collaborators. -/
def Eff (σ α : Type) : Type := σ → Outcome σ α

/-- Return without calling anything. -/
def Eff.pure {σ α : Type} (a : α) : Eff σ α :=
  fun w => { value := a, world := w, calls := [] }

/-- Sequencing: the second computation starts in the world the first one left, and
the calls are concatenated. -/
def Eff.bind {σ α β : Type} (m : Eff σ α) (f : α → Eff σ β) : Eff σ β :=
  fun w =>
    let r := m w
    let r2 := f r.value r.world
    { value := r2.value, world := r2.world, calls := r.calls ++ r2.calls }

instance instMonadEff {σ : Type} : Monad (Eff σ) where
  pure := Eff.pure
  bind := Eff.bind

/-- One call of the external function `c`, whose behaviour is `f`. -/
def invoke {σ α : Type} (c : Call) (f : σ → α × σ) : Eff σ α :=
  fun w => { value := (f w).1, world := (f w).2, calls := [c] }

variable {σ : Type}

/-! ### The recorded calls, under the names the source uses -/

def IsXpsDirectory (X : Collaborators σ) (path : Path) : Eff σ Bool :=
  invoke Call.IsXpsDirectory (X.IsXpsDirectory path)

def GuessFileTypeFromName (X : Collaborators σ) (path : Path) : Eff σ Kind :=
  invoke Call.GuessFileTypeFromName (X.GuessFileTypeFromName path)

def GuessFileTypeFromContent (X : Collaborators σ) (path : Path) : Eff σ Kind :=
  invoke Call.GuessFileTypeFromContent (X.GuessFileTypeFromContent path)

def CreateEngineMupdfFromFile (X : Collaborators σ) (path : Path) (pwdUI : PasswordUI) :
    Eff σ EnginePtr :=
  invoke Call.CreateEngineMupdfFromFile (X.CreateEngineMupdfFromFile path pwdUI)

def CreateEngineXpsFromFile (X : Collaborators σ) (path : Path) : Eff σ EnginePtr :=
  invoke Call.CreateEngineXpsFromFile (X.CreateEngineXpsFromFile path)

def CreateEngineDjVuFromFile (X : Collaborators σ) (path : Path) : Eff σ EnginePtr :=
  invoke Call.CreateEngineDjVuFromFile (X.CreateEngineDjVuFromFile path)

def CreateEngineImageFromFile (X : Collaborators σ) (path : Path) : Eff σ EnginePtr :=
  invoke Call.CreateEngineImageFromFile (X.CreateEngineImageFromFile path)

def CreateEngineImageDirFromFile (X : Collaborators σ) (path : Path) : Eff σ EnginePtr :=
  invoke Call.CreateEngineImageDirFromFile (X.CreateEngineImageDirFromFile path)

def CreateEngineCbxFromFile (X : Collaborators σ) (path : Path) : Eff σ EnginePtr :=
  invoke Call.CreateEngineCbxFromFile (X.CreateEngineCbxFromFile path)

def CreateEnginePsFromFile (X : Collaborators σ) (path : Path) : Eff σ EnginePtr :=
  invoke Call.CreateEnginePsFromFile (X.CreateEnginePsFromFile path)

def CreateEngineChmFromFile (X : Collaborators σ) (path : Path) : Eff σ EnginePtr :=
  invoke Call.CreateEngineChmFromFile (X.CreateEngineChmFromFile path)

def CreateEngineTxtFromFile (X : Collaborators σ) (path : Path) : Eff σ EnginePtr :=
  invoke Call.CreateEngineTxtFromFile (X.CreateEngineTxtFromFile path)

def CreateEngineEpubFromFile (X : Collaborators σ) (path : Path) : Eff σ EnginePtr :=
  invoke Call.CreateEngineEpubFromFile (X.CreateEngineEpubFromFile path)

def CreateEngineFb2FromFile (X : Collaborators σ) (path : Path) : Eff σ EnginePtr :=
  invoke Call.CreateEngineFb2FromFile (X.CreateEngineFb2FromFile path)

def CreateEngineMobiFromFile (X : Collaborators σ) (path : Path) : Eff σ EnginePtr :=
  invoke Call.CreateEngineMobiFromFile (X.CreateEngineMobiFromFile path)

def CreateEnginePdbFromFile (X : Collaborators σ) (path : Path) : Eff σ EnginePtr :=
  invoke Call.CreateEnginePdbFromFile (X.CreateEnginePdbFromFile path)

def EngineMupdfGetAnnotations (X : Collaborators σ) (engine : EnginePtr)
    (annotsOut : List Annotation) : Eff σ (List Annotation) :=
  invoke Call.EngineMupdfGetAnnotations (X.EngineMupdfGetAnnotations engine annotsOut)

def EngineMupdfHasUnsavedAnnotations (X : Collaborators σ) (engine : EnginePtr) : Eff σ Bool :=
  invoke Call.EngineMupdfHasUnsavedAnnotations (X.EngineMupdfHasUnsavedAnnotations engine)

def EngineMupdfGetAnnotationAtPos (X : Collaborators σ) (engine : EnginePtr) (pageNo : Int)
    (pos : PointF) (allowedAnnots : Option (List AnnotationType)) : Eff σ (Option Annotation) :=
  invoke Call.EngineMupdfGetAnnotationAtPos
    (X.EngineMupdfGetAnnotationAtPos engine pageNo pos allowedAnnots)

/-! ## The functions of `EngineCreate.cpp` -/

/-- The module-level toggle, `static bool gEnableEpubWithPdfEngine = true;`, which
nothing in the file assigns. -/
def gEnableEpubWithPdfEngine : Bool := true

/-- `bool IsSupportedFileType(Kind kind, bool enableEngineEbooks)`. -/
def IsSupportedFileType (X : Collaborators σ) (kind : Kind) (enableEngineEbooks : Bool) : Bool :=
  if X.IsEngineMupdfSupportedFileType kind then true
  else if X.IsEngineXpsSupportedFileType kind then true
  else if X.IsEngineDjVuSupportedFileType kind then true
  else if X.IsEngineImageSupportedFileType kind then true
  else if kind = kindDirectory then false
  else if X.IsEngineCbxSupportedFileType kind then true
  else if X.IsEnginePsSupportedFileType kind then true
  else if !enableEngineEbooks then false
  else if kind = kindFileEpub then true
  else if kind = kindFileFb2 then true
  else if kind = kindFileMobi then true
  else if kind = kindFilePalmDoc then true
  else if kind = kindFileHTML then true
  else if kind = kindFileTxt then true
  else false

/-- `static EngineBase* CreateEngineForKind(Kind kind, const WCHAR* path, PasswordUI* pwdUI,
bool enableChmEngine, bool enableEngineEbooks)`. Each `if (...) { engine = ...; return engine; }`
of the source is one arm of the chain. -/
def CreateEngineForKind (X : Collaborators σ) (kind : Kind) (path : Path) (pwdUI : PasswordUI)
    (enableChmEngine enableEngineEbooks : Bool) : Eff σ EnginePtr :=
  if kind = Kind.null then pure none
  else
    let engine : EnginePtr := none
    if kind = kindFilePDF then CreateEngineMupdfFromFile X path pwdUI
    else if X.IsEngineXpsSupportedFileType kind then CreateEngineXpsFromFile X path
    else if X.IsEngineDjVuSupportedFileType kind then CreateEngineDjVuFromFile X path
    else if X.IsEngineImageSupportedFileType kind then CreateEngineImageFromFile X path
    else if kind = kindDirectory then do
      let isXps ← IsXpsDirectory X path
      let engine ← (if isXps then CreateEngineXpsFromFile X path else pure engine)
      if engine.isNone then CreateEngineImageDirFromFile X path else pure engine
    else if X.IsEngineCbxSupportedFileType kind then CreateEngineCbxFromFile X path
    else if X.IsEnginePsSupportedFileType kind then CreateEnginePsFromFile X path
    else if enableChmEngine && kind == kindFileChm then CreateEngineChmFromFile X path
    else if kind = kindFileTxt then CreateEngineTxtFromFile X path
    else if gEnableEpubWithPdfEngine && X.IsEngineMupdfSupportedFileType kind then
      CreateEngineMupdfFromFile X path pwdUI
    else if !enableEngineEbooks then pure engine
    else if kind = kindFileEpub then CreateEngineEpubFromFile X path
    else if kind = kindFileFb2 then CreateEngineFb2FromFile X path
    else if kind = kindFileMobi then CreateEngineMobiFromFile X path
    else if kind = kindFilePalmDoc then CreateEnginePdbFromFile X path
    else if kind = kindFileHTML then CreateEnginePdbFromFile X path
    else pure none

/-- Lines 154 to 164 of `CreateEngine`: the two passes, after the null-path check. -/
def CreateEngineBody (X : Collaborators σ) (path : Path) (pwdUI : PasswordUI)
    (enableChmEngine enableEngineEbooks : Bool) : Eff σ EnginePtr := do
  let kind ← GuessFileTypeFromName X path
  let engine ← CreateEngineForKind X kind path pwdUI enableChmEngine enableEngineEbooks
  if engine.isSome then pure engine
  else do
    let newKind ← GuessFileTypeFromContent X path
    if kind ≠ newKind then
      CreateEngineForKind X newKind path pwdUI enableChmEngine enableEngineEbooks
    else pure engine

/-- `EngineBase* CreateEngine(const WCHAR* path, PasswordUI* pwdUI, bool enableChmEngine,
bool enableEngineEbooks)`. Modelled from the spec: the macro `CrashIf` is not part of this
file; a null path is "a fatal precondition violation", so the run ends there with no
outcome (`none`). -/
def CreateEngine (X : Collaborators σ) (path : Path) (pwdUI : PasswordUI)
    (enableChmEngine enableEngineEbooks : Bool) (w : σ) : Option (Outcome σ EnginePtr) :=
  if path.isNone then none
  else some (CreateEngineBody X path pwdUI enableChmEngine enableEngineEbooks w)

/-- `static bool IsEngineMupdf(EngineBase* engine)`. -/
def IsEngineMupdf (engine : EnginePtr) : Bool :=
  match engine with
  | none => false
  | some e => e.kind == kindEngineMupdf

/-- `bool EngineSupportsAnnotations(EngineBase* engine)`. -/
def EngineSupportsAnnotations (engine : EnginePtr) : Bool :=
  IsEngineMupdf engine

/-- `bool EngineGetAnnotations(EngineBase* engine, Vec<Annotation*>* annotsOut)`: the
value is the returned flag together with the contents of the caller's list afterwards. -/
def EngineGetAnnotations (X : Collaborators σ) (engine : EnginePtr)
    (annotsOut : List Annotation) : Eff σ (Bool × List Annotation) :=
  if !IsEngineMupdf engine then pure (false, annotsOut)
  else do
    let annotsOut ← EngineMupdfGetAnnotations X engine annotsOut
    pure (true, annotsOut)

/-- `bool EngineHasUnsavedAnnotations(EngineBase* engine)`. -/
def EngineHasUnsavedAnnotations (X : Collaborators σ) (engine : EnginePtr) : Eff σ Bool :=
  if !IsEngineMupdf engine then pure false
  else EngineMupdfHasUnsavedAnnotations X engine

/-- `Annotation* EngineGetAnnotationAtPos(EngineBase* engine, int pageNo, PointF pos,
AnnotationType* allowedAnnots)`. -/
def EngineGetAnnotationAtPos (X : Collaborators σ) (engine : EnginePtr) (pageNo : Int)
    (pos : PointF) (allowedAnnots : Option (List AnnotationType)) : Eff σ (Option Annotation) :=
  if !IsEngineMupdf engine then pure none
  else EngineMupdfGetAnnotationAtPos X engine pageNo pos allowedAnnots

/-! ## Observation points of `CreateEngine` -/

/-- The outcome of the name sniff with which `CreateEngine` starts. -/
def nameSniff (X : Collaborators σ) (path : Path) (w : σ) : Outcome σ Kind :=
  GuessFileTypeFromName X path w

/-- The first pass: the dispatch on the kind guessed from the name, run in the world the
name sniff left. -/
def firstPass (X : Collaborators σ) (path : Path) (pwdUI : PasswordUI)
    (enableChmEngine enableEngineEbooks : Bool) (w : σ) : Outcome σ EnginePtr :=
  CreateEngineForKind X (nameSniff X path w).value path pwdUI enableChmEngine enableEngineEbooks
    (nameSniff X path w).world

/-- The content sniff, run in the world the first pass left. -/
def contentSniff (X : Collaborators σ) (path : Path) (pwdUI : PasswordUI)
    (enableChmEngine enableEngineEbooks : Bool) (w : σ) : Outcome σ Kind :=
  GuessFileTypeFromContent X path (firstPass X path pwdUI enableChmEngine enableEngineEbooks w).world

/-- The second pass: the dispatch on the kind guessed from the content, run in the world
the content sniff left. -/
def secondPass (X : Collaborators σ) (path : Path) (pwdUI : PasswordUI)
    (enableChmEngine enableEngineEbooks : Bool) (w : σ) : Outcome σ EnginePtr :=
  CreateEngineForKind X (contentSniff X path pwdUI enableChmEngine enableEngineEbooks w).value path
    pwdUI enableChmEngine enableEngineEbooks
    (contentSniff X path pwdUI enableChmEngine enableEngineEbooks w).world

/-! ## The dispatch as a table -/

/-- One arm of a dispatch: whether it applies to the kind, and the construction it performs. -/
structure Branch (σ : Type) where
  applies : Bool
  construct : Eff σ EnginePtr

/-- The directory sub-dispatch in the words of the spec: "try XPS-folder detection first,
fall back to image-directory". -/
def directoryEngine (X : Collaborators σ) (path : Path) : Eff σ EnginePtr := do
  let isXps ← IsXpsDirectory X path
  let engine ← (if isXps then CreateEngineXpsFromFile X path else pure none)
  if engine.isNone then CreateEngineImageDirFromFile X path else pure engine

/-- The arms from PDF to plain text, in the order of the spec: PDF, XPS, DjVu, image,
directory-specific, comic-archive, PostScript, CHM (if enabled), plain text. -/
def leadingBranches (X : Collaborators σ) (kind : Kind) (path : Path) (pwdUI : PasswordUI)
    (enableChmEngine : Bool) : List (Branch σ) :=
  [ { applies := kind == kindFilePDF, construct := CreateEngineMupdfFromFile X path pwdUI },
    { applies := X.IsEngineXpsSupportedFileType kind, construct := CreateEngineXpsFromFile X path },
    { applies := X.IsEngineDjVuSupportedFileType kind, construct := CreateEngineDjVuFromFile X path },
    { applies := X.IsEngineImageSupportedFileType kind,
      construct := CreateEngineImageFromFile X path },
    { applies := kind == kindDirectory, construct := directoryEngine X path },
    { applies := X.IsEngineCbxSupportedFileType kind, construct := CreateEngineCbxFromFile X path },
    { applies := X.IsEnginePsSupportedFileType kind, construct := CreateEnginePsFromFile X path },
    { applies := enableChmEngine && kind == kindFileChm,
      construct := CreateEngineChmFromFile X path },
    { applies := kind == kindFileTxt, construct := CreateEngineTxtFromFile X path } ]

/-- The arm that hands every kind the MuPDF predicate accepts to the MuPDF constructor,
behind the module-level toggle. -/
def mupdfBranch (X : Collaborators σ) (kind : Kind) (path : Path) (pwdUI : PasswordUI) :
    Branch σ :=
  { applies := gEnableEpubWithPdfEngine && X.IsEngineMupdfSupportedFileType kind,
    construct := CreateEngineMupdfFromFile X path pwdUI }

/-- The arms for the ebook formats (if enabled). -/
def ebookBranches (X : Collaborators σ) (kind : Kind) (path : Path) (enableEngineEbooks : Bool) :
    List (Branch σ) :=
  [ { applies := enableEngineEbooks && kind == kindFileEpub,
      construct := CreateEngineEpubFromFile X path },
    { applies := enableEngineEbooks && kind == kindFileFb2,
      construct := CreateEngineFb2FromFile X path },
    { applies := enableEngineEbooks && kind == kindFileMobi,
      construct := CreateEngineMobiFromFile X path },
    { applies := enableEngineEbooks && kind == kindFilePalmDoc,
      construct := CreateEnginePdbFromFile X path },
    { applies := enableEngineEbooks && kind == kindFileHTML,
      construct := CreateEnginePdbFromFile X path } ]

/-- The priority list as the spec gives it: PDF, XPS, DjVu, image, directory-specific,
comic-archive, PostScript, CHM (if enabled), plain text, ebook formats (if enabled). -/
def specBranches (X : Collaborators σ) (kind : Kind) (path : Path) (pwdUI : PasswordUI)
    (enableChmEngine enableEngineEbooks : Bool) : List (Branch σ) :=
  leadingBranches X kind path pwdUI enableChmEngine ++ ebookBranches X kind path enableEngineEbooks

/-- The priority list with the MuPDF arm between plain text and the ebook formats. -/
def dispatchBranches (X : Collaborators σ) (kind : Kind) (path : Path) (pwdUI : PasswordUI)
    (enableChmEngine enableEngineEbooks : Bool) : List (Branch σ) :=
  leadingBranches X kind path pwdUI enableChmEngine ++
    mupdfBranch X kind path pwdUI :: ebookBranches X kind path enableEngineEbooks

/-- The dispatch in the words of the spec: try the applicable arms in order and return the
first non-null result, or null if none matches. -/
def firstNonNull : List (Branch σ) → Eff σ EnginePtr
  | [] => pure none
  | b :: bs =>
    if b.applies then do
      let engine ← b.construct
      if engine.isSome then pure engine else firstNonNull bs
    else firstNonNull bs

/-- Take the first applicable arm and return whatever it constructs, null or not; null if
no arm applies. -/
def firstApplicable : List (Branch σ) → Eff σ EnginePtr
  | [] => pure none
  | b :: bs => if b.applies then b.construct else firstApplicable bs

/-! ## Constructors among the recorded calls -/

/-- The engine constructors. -/
def Call.isConstructor : Call → Bool
  | Call.CreateEngineMupdfFromFile => true
  | Call.CreateEngineXpsFromFile => true
  | Call.CreateEngineDjVuFromFile => true
  | Call.CreateEngineImageFromFile => true
  | Call.CreateEngineImageDirFromFile => true
  | Call.CreateEngineCbxFromFile => true
  | Call.CreateEnginePsFromFile => true
  | Call.CreateEngineChmFromFile => true
  | Call.CreateEngineTxtFromFile => true
  | Call.CreateEngineEpubFromFile => true
  | Call.CreateEngineFb2FromFile => true
  | Call.CreateEngineMobiFromFile => true
  | Call.CreateEnginePdbFromFile => true
  | _ => false

/-- The call of the constructor named by `c` with the arguments of the dispatcher. -/
def constructorCall (X : Collaborators σ) (c : Call) (path : Path) (pwdUI : PasswordUI) :
    Eff σ EnginePtr :=
  match c with
  | Call.CreateEngineMupdfFromFile => CreateEngineMupdfFromFile X path pwdUI
  | Call.CreateEngineXpsFromFile => CreateEngineXpsFromFile X path
  | Call.CreateEngineDjVuFromFile => CreateEngineDjVuFromFile X path
  | Call.CreateEngineImageFromFile => CreateEngineImageFromFile X path
  | Call.CreateEngineImageDirFromFile => CreateEngineImageDirFromFile X path
  | Call.CreateEngineCbxFromFile => CreateEngineCbxFromFile X path
  | Call.CreateEnginePsFromFile => CreateEnginePsFromFile X path
  | Call.CreateEngineChmFromFile => CreateEngineChmFromFile X path
  | Call.CreateEngineTxtFromFile => CreateEngineTxtFromFile X path
  | Call.CreateEngineEpubFromFile => CreateEngineEpubFromFile X path
  | Call.CreateEngineFb2FromFile => CreateEngineFb2FromFile X path
  | Call.CreateEngineMobiFromFile => CreateEngineMobiFromFile X path
  | Call.CreateEnginePdbFromFile => CreateEnginePdbFromFile X path
  | _ => pure none

/-- The dedicated ebook constructors. -/
def ebookConstructors : List Call :=
  [Call.CreateEngineEpubFromFile, Call.CreateEngineFb2FromFile, Call.CreateEngineMobiFromFile,
    Call.CreateEnginePdbFromFile]

/-- Some arm of `CreateEngineForKind` above the CHM arm claims the kind. -/
def claimedBeforeChm (X : Collaborators σ) (kind : Kind) : Bool :=
  kind == kindFilePDF || X.IsEngineXpsSupportedFileType kind ||
    X.IsEngineDjVuSupportedFileType kind || X.IsEngineImageSupportedFileType kind ||
    kind == kindDirectory || X.IsEngineCbxSupportedFileType kind ||
    X.IsEnginePsSupportedFileType kind

/-- Some arm of `CreateEngineForKind` above the ebook arms claims the kind. -/
def claimedBeforeEbooks (X : Collaborators σ) (kind : Kind) (enableChmEngine : Bool) : Bool :=
  claimedBeforeChm X kind || (enableChmEngine && kind == kindFileChm) || kind == kindFileTxt ||
    (gEnableEpubWithPdfEngine && X.IsEngineMupdfSupportedFileType kind)

/-- The six kinds `IsSupportedFileType` accepts once ebook engines are enabled. -/
def ebookKinds : List Kind :=
  [kindFileEpub, kindFileFb2, kindFileMobi, kindFilePalmDoc, kindFileHTML, kindFileTxt]

/-! ## Concrete collaborators, for evaluating the functions -/

/-- Collaborators over a world that counts the external calls: no family predicate
claims any kind, every sniffer answers the null kind and every constructor fails. -/
def quiet : Collaborators Nat where
  IsEngineMupdfSupportedFileType := fun _ => false
  IsEngineXpsSupportedFileType := fun _ => false
  IsEngineDjVuSupportedFileType := fun _ => false
  IsEngineImageSupportedFileType := fun _ => false
  IsEngineCbxSupportedFileType := fun _ => false
  IsEnginePsSupportedFileType := fun _ => false
  IsXpsDirectory := fun _ w => (false, w + 1)
  GuessFileTypeFromName := fun _ w => (Kind.null, w + 1)
  GuessFileTypeFromContent := fun _ w => (Kind.null, w + 1)
  CreateEngineMupdfFromFile := fun _ _ w => (none, w + 1)
  CreateEngineXpsFromFile := fun _ w => (none, w + 1)
  CreateEngineDjVuFromFile := fun _ w => (none, w + 1)
  CreateEngineImageFromFile := fun _ w => (none, w + 1)
  CreateEngineImageDirFromFile := fun _ w => (none, w + 1)
  CreateEngineCbxFromFile := fun _ w => (none, w + 1)
  CreateEnginePsFromFile := fun _ w => (none, w + 1)
  CreateEngineChmFromFile := fun _ w => (none, w + 1)
  CreateEngineTxtFromFile := fun _ w => (none, w + 1)
  CreateEngineEpubFromFile := fun _ w => (none, w + 1)
  CreateEngineFb2FromFile := fun _ w => (none, w + 1)
  CreateEngineMobiFromFile := fun _ w => (none, w + 1)
  CreateEnginePdbFromFile := fun _ w => (none, w + 1)
  EngineMupdfGetAnnotations := fun _ l w => (l, w + 1)
  EngineMupdfHasUnsavedAnnotations := fun _ w => (false, w + 1)
  EngineMupdfGetAnnotationAtPos := fun _ _ _ _ w => (none, w + 1)

/-- As `quiet`, but the comic-archive predicate also claims `kindDirectory`. -/
def cbxClaimsDirectory : Collaborators Nat :=
  { quiet with IsEngineCbxSupportedFileType := fun k => k == kindDirectory }

/-- A MuPDF engine object. -/
def mupdfEngine : EngineBase := { kind := kindEngineMupdf, handle := 7 }

/-- An engine object of another kind. -/
def otherEngine : EngineBase := { kind := Kind.other 3, handle := 8 }

/-- As `quiet`, but the MuPDF annotation functions answer: the list gains annotation 41,
there are unsaved annotations, and annotation 42 sits at every position. -/
def annotating : Collaborators Nat :=
  { quiet with
    EngineMupdfGetAnnotations := fun _ l w => (l ++ [41], w + 1)
    EngineMupdfHasUnsavedAnnotations := fun _ w => (true, w + 1)
    EngineMupdfGetAnnotationAtPos := fun _ _ _ _ w => (some 42, w + 1) }

/-- An XPS engine object. -/
def xpsEngine : EngineBase := { kind := Kind.other 1, handle := 9 }

/-- An image-directory engine object. -/
def imageDirEngine : EngineBase := { kind := Kind.other 2, handle := 10 }

/-- An EPUB engine object. -/
def epubEngine : EngineBase := { kind := Kind.other 4, handle := 11 }

/-- As `quiet`, but every directory is an XPS folder that both the XPS and the
image-directory constructor can open. -/
def xpsFolder : Collaborators Nat :=
  { quiet with
    IsXpsDirectory := fun _ w => (true, w + 1)
    CreateEngineXpsFromFile := fun _ w => (some xpsEngine, w + 1)
    CreateEngineImageDirFromFile := fun _ w => (some imageDirEngine, w + 1) }

/-- As `quiet`, but the MuPDF predicate accepts `kindFileEpub` and the dedicated EPUB
constructor succeeds; the MuPDF constructor still fails. -/
def epubForMupdf : Collaborators Nat :=
  { quiet with
    IsEngineMupdfSupportedFileType := fun k => k == kindFileEpub
    CreateEngineEpubFromFile := fun _ w => (some epubEngine, w + 1) }

/-- As `quiet`, but the name sniff answers `kindFilePDF` and the MuPDF constructor
succeeds. -/
def pdfByName : Collaborators Nat :=
  { quiet with
    GuessFileTypeFromName := fun _ w => (kindFilePDF, w + 1)
    CreateEngineMupdfFromFile := fun _ _ w => (some mupdfEngine, w + 1) }

/-- As `quiet`, but the name sniff answers `kindFileTxt`, the content sniff answers
`kindFilePDF` and the MuPDF constructor succeeds; the text constructor still fails. -/
def pdfByContent : Collaborators Nat :=
  { quiet with
    GuessFileTypeFromName := fun _ w => (kindFileTxt, w + 1)
    GuessFileTypeFromContent := fun _ w => (kindFilePDF, w + 1)
    CreateEngineMupdfFromFile := fun _ _ w => (some mupdfEngine, w + 1) }

/-- As `quiet`, but both sniffs answer `kindFileTxt`. -/
def txtTwice : Collaborators Nat :=
  { quiet with
    GuessFileTypeFromName := fun _ w => (kindFileTxt, w + 1)
    GuessFileTypeFromContent := fun _ w => (kindFileTxt, w + 1) }

/-- As `quiet`, but the name sniff answers `kindFileTxt` and the content sniff answers
`kindFilePDF`; every constructor still fails. -/
def txtThenPdf : Collaborators Nat :=
  { quiet with
    GuessFileTypeFromName := fun _ w => (kindFileTxt, w + 1)
    GuessFileTypeFromContent := fun _ w => (kindFilePDF, w + 1) }

/-- As `quiet`, but every ebook constructor succeeds. -/
def ebooks : Collaborators Nat :=
  { quiet with
    CreateEngineChmFromFile := fun _ w => (some otherEngine, w + 1)
    CreateEngineEpubFromFile := fun _ w => (some epubEngine, w + 1)
    CreateEngineFb2FromFile := fun _ w => (some epubEngine, w + 1)
    CreateEngineMobiFromFile := fun _ w => (some epubEngine, w + 1)
    CreateEnginePdbFromFile := fun _ w => (some epubEngine, w + 1) }

/-! ## Supported file types -/

/-- C5 (as amended): `IsSupportedFileType` returns true exactly when the MuPDF, XPS, DjVu or
image predicate accepts the kind, or the kind is not `kindDirectory` and the comic-archive
or PostScript predicate accepts it, or ebook engines are enabled and the kind is one of
Epub, Fb2, Mobi, PalmDoc, HTML, Txt; it returns false otherwise. -/
theorem IsSupportedFileType_iff (X : Collaborators σ) (kind : Kind) (enableEngineEbooks : Bool) :
    IsSupportedFileType X kind enableEngineEbooks = true ↔
      (X.IsEngineMupdfSupportedFileType kind = true ∨ X.IsEngineXpsSupportedFileType kind = true ∨
        X.IsEngineDjVuSupportedFileType kind = true ∨ X.IsEngineImageSupportedFileType kind = true) ∨
      (kind ≠ kindDirectory ∧
        (X.IsEngineCbxSupportedFileType kind = true ∨ X.IsEnginePsSupportedFileType kind = true)) ∨
      (enableEngineEbooks = true ∧ kind ∈ ebookKinds) := by
  unfold IsSupportedFileType ebookKinds
  by_cases hd : kind = kindDirectory
  · subst hd
    cases X.IsEngineMupdfSupportedFileType kindDirectory <;>
      cases X.IsEngineXpsSupportedFileType kindDirectory <;>
      cases X.IsEngineDjVuSupportedFileType kindDirectory <;>
      cases X.IsEngineImageSupportedFileType kindDirectory <;> simp
  · cases X.IsEngineMupdfSupportedFileType kind <;>
      cases X.IsEngineXpsSupportedFileType kind <;>
      cases X.IsEngineDjVuSupportedFileType kind <;>
      cases X.IsEngineImageSupportedFileType kind <;>
      cases X.IsEngineCbxSupportedFileType kind <;>
      cases X.IsEnginePsSupportedFileType kind <;>
      cases enableEngineEbooks <;> simp [hd]

/-- C5 (counterexample): the comic-archive predicate accepts `kindDirectory`, yet
`IsSupportedFileType` returns false for it, with ebook engines enabled or not. -/
theorem IsSupportedFileType_directory_not_by_predicate :
    cbxClaimsDirectory.IsEngineCbxSupportedFileType kindDirectory = true ∧
      IsSupportedFileType cbxClaimsDirectory kindDirectory true = false ∧
      IsSupportedFileType cbxClaimsDirectory kindDirectory false = false := by
  decide

/-! ## Annotation pass-through -/

/-- C6: for an engine handle that is null or whose kind tag is not `kindEngineMupdf`,
`EngineSupportsAnnotations` is false, `EngineGetAnnotations` returns false with the caller's
list as it was, `EngineHasUnsavedAnnotations` returns false and `EngineGetAnnotationAtPos`
returns null; none of them calls anything and the world is untouched. -/
theorem annotations_unsupported (X : Collaborators σ) (engine : EnginePtr)
    (h : ∀ e, engine = some e → e.kind ≠ kindEngineMupdf)
    (annotsOut : List Annotation) (pageNo : Int) (pos : PointF)
    (allowedAnnots : Option (List AnnotationType)) (w : σ) :
    EngineSupportsAnnotations engine = false ∧
      EngineGetAnnotations X engine annotsOut w =
        { value := (false, annotsOut), world := w, calls := [] } ∧
      EngineHasUnsavedAnnotations X engine w = { value := false, world := w, calls := [] } ∧
      EngineGetAnnotationAtPos X engine pageNo pos allowedAnnots w =
        { value := none, world := w, calls := [] } := by
  have hm : IsEngineMupdf engine = false := by
    cases engine with
    | none => rfl
    | some e => simpa [IsEngineMupdf] using h e rfl
  simp [EngineSupportsAnnotations, EngineGetAnnotations, EngineHasUnsavedAnnotations,
    EngineGetAnnotationAtPos, hm, Pure.pure, Eff.pure]

/-- C6 (witness): a null handle and an engine of another kind, against collaborators whose
MuPDF annotation functions would answer. -/
theorem annotations_unsupported_witness :
    (EngineSupportsAnnotations none = false ∧
      EngineGetAnnotations annotating none [1, 2] 0 =
        { value := (false, [1, 2]), world := 0, calls := [] } ∧
      EngineHasUnsavedAnnotations annotating none 0 = { value := false, world := 0, calls := [] } ∧
      EngineGetAnnotationAtPos annotating none 3 { x := 0, y := 0 } none 0 =
        { value := none, world := 0, calls := [] }) ∧
    (EngineSupportsAnnotations (some otherEngine) = false ∧
      EngineGetAnnotations annotating (some otherEngine) [1, 2] 0 =
        { value := (false, [1, 2]), world := 0, calls := [] } ∧
      EngineHasUnsavedAnnotations annotating (some otherEngine) 0 =
        { value := false, world := 0, calls := [] } ∧
      EngineGetAnnotationAtPos annotating (some otherEngine) 3 { x := 0, y := 0 } none 0 =
        { value := none, world := 0, calls := [] }) :=
  ⟨annotations_unsupported annotating none (by simp) [1, 2] 3 { x := 0, y := 0 } none 0,
    annotations_unsupported annotating (some otherEngine) (by simp [otherEngine]) [1, 2] 3
      { x := 0, y := 0 } none 0⟩

/-- C7: for a non-null engine whose kind tag is `kindEngineMupdf`, `EngineSupportsAnnotations`
is true, `EngineGetAnnotations` returns true with the list as `EngineMupdfGetAnnotations`
leaves it, `EngineHasUnsavedAnnotations` returns what `EngineMupdfHasUnsavedAnnotations`
returns, and `EngineGetAnnotationAtPos` returns what `EngineMupdfGetAnnotationAtPos` returns
for the same engine, page number, position and filter; each makes exactly that one call. -/
theorem annotations_delegate (X : Collaborators σ) (e : EngineBase)
    (h : e.kind = kindEngineMupdf)
    (annotsOut : List Annotation) (pageNo : Int) (pos : PointF)
    (allowedAnnots : Option (List AnnotationType)) (w : σ) :
    EngineSupportsAnnotations (some e) = true ∧
      EngineGetAnnotations X (some e) annotsOut w =
        { value := (true, (X.EngineMupdfGetAnnotations (some e) annotsOut w).1),
          world := (X.EngineMupdfGetAnnotations (some e) annotsOut w).2,
          calls := [Call.EngineMupdfGetAnnotations] } ∧
      EngineHasUnsavedAnnotations X (some e) w =
        { value := (X.EngineMupdfHasUnsavedAnnotations (some e) w).1,
          world := (X.EngineMupdfHasUnsavedAnnotations (some e) w).2,
          calls := [Call.EngineMupdfHasUnsavedAnnotations] } ∧
      EngineGetAnnotationAtPos X (some e) pageNo pos allowedAnnots w =
        { value := (X.EngineMupdfGetAnnotationAtPos (some e) pageNo pos allowedAnnots w).1,
          world := (X.EngineMupdfGetAnnotationAtPos (some e) pageNo pos allowedAnnots w).2,
          calls := [Call.EngineMupdfGetAnnotationAtPos] } := by
  have hm : IsEngineMupdf (some e) = true := by simp [IsEngineMupdf, h]
  simp [EngineSupportsAnnotations, EngineGetAnnotations, EngineHasUnsavedAnnotations,
    EngineGetAnnotationAtPos, hm, Bind.bind, Eff.bind, Pure.pure, Eff.pure, invoke,
    EngineMupdfGetAnnotations, EngineMupdfHasUnsavedAnnotations, EngineMupdfGetAnnotationAtPos]

/-- C7 (witness): the MuPDF engine against the answering collaborators. -/
theorem annotations_delegate_witness :
    EngineSupportsAnnotations (some mupdfEngine) = true ∧
      EngineGetAnnotations annotating (some mupdfEngine) [1, 2] 0 =
        { value := (true, [1, 2, 41]), world := 1, calls := [Call.EngineMupdfGetAnnotations] } ∧
      EngineHasUnsavedAnnotations annotating (some mupdfEngine) 0 =
        { value := true, world := 1, calls := [Call.EngineMupdfHasUnsavedAnnotations] } ∧
      EngineGetAnnotationAtPos annotating (some mupdfEngine) 3 { x := 0, y := 0 } none 0 =
        { value := some 42, world := 1, calls := [Call.EngineMupdfGetAnnotationAtPos] } :=
  annotations_delegate annotating mupdfEngine rfl [1, 2] 3 { x := 0, y := 0 } none 0

/-! ## Shape of a dispatch -/

/-- The outcome of the directory sub-dispatch, by cases. -/
theorem directoryEngine_run (X : Collaborators σ) (path : Path) (w : σ) :
    directoryEngine X path w =
      if (X.IsXpsDirectory path w).1 = true then
        if (X.CreateEngineXpsFromFile path (X.IsXpsDirectory path w).2).1 = none then
          { value := (X.CreateEngineImageDirFromFile path
              (X.CreateEngineXpsFromFile path (X.IsXpsDirectory path w).2).2).1,
            world := (X.CreateEngineImageDirFromFile path
              (X.CreateEngineXpsFromFile path (X.IsXpsDirectory path w).2).2).2,
            calls := [Call.IsXpsDirectory, Call.CreateEngineXpsFromFile,
              Call.CreateEngineImageDirFromFile] }
        else
          { value := (X.CreateEngineXpsFromFile path (X.IsXpsDirectory path w).2).1,
            world := (X.CreateEngineXpsFromFile path (X.IsXpsDirectory path w).2).2,
            calls := [Call.IsXpsDirectory, Call.CreateEngineXpsFromFile] }
      else
        { value := (X.CreateEngineImageDirFromFile path (X.IsXpsDirectory path w).2).1,
          world := (X.CreateEngineImageDirFromFile path (X.IsXpsDirectory path w).2).2,
          calls := [Call.IsXpsDirectory, Call.CreateEngineImageDirFromFile] } := by
  by_cases h1 : (X.IsXpsDirectory path w).1 = true
  · by_cases h2 : (X.CreateEngineXpsFromFile path (X.IsXpsDirectory path w).2).1 = none
    · simp [directoryEngine, Bind.bind, Eff.bind, Pure.pure, Eff.pure, IsXpsDirectory,
        CreateEngineXpsFromFile, CreateEngineImageDirFromFile, invoke, h1, h2]
    · simp [directoryEngine, Bind.bind, Eff.bind, Pure.pure, Eff.pure, IsXpsDirectory,
        CreateEngineXpsFromFile, CreateEngineImageDirFromFile, invoke, h1, h2]
  · simp [directoryEngine, Bind.bind, Eff.bind, Pure.pure, Eff.pure, IsXpsDirectory,
        CreateEngineXpsFromFile, CreateEngineImageDirFromFile, invoke, h1]

/-- The directory arm of `CreateEngineForKind` is the directory sub-dispatch. -/
theorem CreateEngineForKind_directory (X : Collaborators σ) (path : Path) (pwdUI : PasswordUI)
    (enableChmEngine enableEngineEbooks : Bool)
    (hx : X.IsEngineXpsSupportedFileType kindDirectory = false)
    (hd : X.IsEngineDjVuSupportedFileType kindDirectory = false)
    (hi : X.IsEngineImageSupportedFileType kindDirectory = false) :
    CreateEngineForKind X kindDirectory path pwdUI enableChmEngine enableEngineEbooks =
      directoryEngine X path := by
  unfold CreateEngineForKind
  rw [if_neg (by decide)]
  simp only []
  rw [if_neg (by decide)]
  simp only [hx, hd, hi, Bool.false_eq_true, if_false, if_true]
  rfl

/-- A single constructor call ends with a constructor call whose result it returns. -/
theorem constructorCall_last (X : Collaborators σ) (c : Call) (hc : c.isConstructor = true)
    (path : Path) (pwdUI : PasswordUI) (w : σ) :
    ∃ c' pre w0, c'.isConstructor = true ∧
      (constructorCall X c path pwdUI w).calls = pre ++ [c'] ∧
      (constructorCall X c path pwdUI w).value = (constructorCall X c' path pwdUI w0).value ∧
      (constructorCall X c path pwdUI w).world = (constructorCall X c' path pwdUI w0).world := by
  refine ⟨c, [], w, hc, ?_, rfl, rfl⟩
  cases c <;> first | rfl | simp [Call.isConstructor] at hc

/-- The directory sub-dispatch ends with a constructor call whose result it returns. -/
theorem directoryEngine_last (X : Collaborators σ) (path : Path) (pwdUI : PasswordUI) (w : σ) :
    ∃ c pre w0, c.isConstructor = true ∧
      (directoryEngine X path w).calls = pre ++ [c] ∧
      (directoryEngine X path w).value = (constructorCall X c path pwdUI w0).value ∧
      (directoryEngine X path w).world = (constructorCall X c path pwdUI w0).world := by
  rw [directoryEngine_run]
  split_ifs
  · exact ⟨Call.CreateEngineImageDirFromFile, [Call.IsXpsDirectory, Call.CreateEngineXpsFromFile],
      (X.CreateEngineXpsFromFile path (X.IsXpsDirectory path w).2).2, rfl, rfl, rfl, rfl⟩
  · exact ⟨Call.CreateEngineXpsFromFile, [Call.IsXpsDirectory], (X.IsXpsDirectory path w).2,
      rfl, rfl, rfl, rfl⟩
  · exact ⟨Call.CreateEngineImageDirFromFile, [Call.IsXpsDirectory], (X.IsXpsDirectory path w).2,
      rfl, rfl, rfl, rfl⟩

/-- A constructor call records exactly the constructor. -/
theorem constructorCall_calls (X : Collaborators σ) (c : Call) (hc : c.isConstructor = true)
    (path : Path) (pwdUI : PasswordUI) (w : σ) :
    (constructorCall X c path pwdUI w).calls = [c] := by
  cases c <;> first | rfl | simp [Call.isConstructor] at hc

/-- The directory sub-dispatch calls nothing but `IsXpsDirectory`, the XPS constructor and
the image-directory constructor. -/
theorem directoryEngine_calls (X : Collaborators σ) (path : Path) (w : σ) (c : Call)
    (hc : c ∈ (directoryEngine X path w).calls) :
    c = Call.IsXpsDirectory ∨ c = Call.CreateEngineXpsFromFile ∨
      c = Call.CreateEngineImageDirFromFile := by
  rw [directoryEngine_run] at hc
  split_ifs at hc <;> simp at hc <;> tauto

/-- Every run of `CreateEngineForKind` is (a) a return of null without a call, only for the
null kind or a kind that `IsSupportedFileType` rejects, (b) the directory sub-dispatch, or
(c) one constructor call; the CHM constructor only if CHM is enabled, a dedicated ebook
constructor only if ebook engines are enabled. -/
theorem CreateEngineForKind_shape (X : Collaborators σ) (kind : Kind) (path : Path)
    (pwdUI : PasswordUI) (enableChmEngine enableEngineEbooks : Bool) :
    (CreateEngineForKind X kind path pwdUI enableChmEngine enableEngineEbooks = pure none ∧
        (kind = Kind.null ∨ IsSupportedFileType X kind enableEngineEbooks = false)) ∨
      CreateEngineForKind X kind path pwdUI enableChmEngine enableEngineEbooks =
        directoryEngine X path ∨
      ∃ c, c.isConstructor = true ∧
        CreateEngineForKind X kind path pwdUI enableChmEngine enableEngineEbooks =
          constructorCall X c path pwdUI ∧
        (c = Call.CreateEngineChmFromFile → enableChmEngine = true) ∧
        (c ∈ ebookConstructors → enableEngineEbooks = true) := by
  unfold CreateEngineForKind
  by_cases h0 : kind = Kind.null
  · rw [if_pos h0]; exact Or.inl ⟨rfl, Or.inl h0⟩
  rw [if_neg h0]
  dsimp only
  by_cases h1 : kind = kindFilePDF
  · rw [if_pos h1]
    exact Or.inr (Or.inr ⟨Call.CreateEngineMupdfFromFile, rfl, rfl, by simp,
      by simp [ebookConstructors]⟩)
  rw [if_neg h1]
  by_cases h2 : X.IsEngineXpsSupportedFileType kind = true
  · rw [if_pos h2]
    exact Or.inr (Or.inr ⟨Call.CreateEngineXpsFromFile, rfl, rfl, by simp,
      by simp [ebookConstructors]⟩)
  rw [if_neg h2]
  by_cases h3 : X.IsEngineDjVuSupportedFileType kind = true
  · rw [if_pos h3]
    exact Or.inr (Or.inr ⟨Call.CreateEngineDjVuFromFile, rfl, rfl, by simp,
      by simp [ebookConstructors]⟩)
  rw [if_neg h3]
  by_cases h4 : X.IsEngineImageSupportedFileType kind = true
  · rw [if_pos h4]
    exact Or.inr (Or.inr ⟨Call.CreateEngineImageFromFile, rfl, rfl, by simp,
      by simp [ebookConstructors]⟩)
  rw [if_neg h4]
  by_cases h5 : kind = kindDirectory
  · rw [if_pos h5]; exact Or.inr (Or.inl rfl)
  rw [if_neg h5]
  by_cases h6 : X.IsEngineCbxSupportedFileType kind = true
  · rw [if_pos h6]
    exact Or.inr (Or.inr ⟨Call.CreateEngineCbxFromFile, rfl, rfl, by simp,
      by simp [ebookConstructors]⟩)
  rw [if_neg h6]
  by_cases h7 : X.IsEnginePsSupportedFileType kind = true
  · rw [if_pos h7]
    exact Or.inr (Or.inr ⟨Call.CreateEnginePsFromFile, rfl, rfl, by simp,
      by simp [ebookConstructors]⟩)
  rw [if_neg h7]
  by_cases h8 : (enableChmEngine && kind == kindFileChm) = true
  · rw [if_pos h8]
    exact Or.inr (Or.inr ⟨Call.CreateEngineChmFromFile, rfl, rfl, by simp_all,
      by simp [ebookConstructors]⟩)
  rw [if_neg h8]
  by_cases h9 : kind = kindFileTxt
  · rw [if_pos h9]
    exact Or.inr (Or.inr ⟨Call.CreateEngineTxtFromFile, rfl, rfl, by simp,
      by simp [ebookConstructors]⟩)
  rw [if_neg h9]
  by_cases h10 : (gEnableEpubWithPdfEngine && X.IsEngineMupdfSupportedFileType kind) = true
  · rw [if_pos h10]
    exact Or.inr (Or.inr ⟨Call.CreateEngineMupdfFromFile, rfl, rfl, by simp,
      by simp [ebookConstructors]⟩)
  rw [if_neg h10]
  have hm : X.IsEngineMupdfSupportedFileType kind = false := by
    simpa [gEnableEpubWithPdfEngine] using h10
  by_cases h11 : (!enableEngineEbooks) = true
  · rw [if_pos h11]
    refine Or.inl ⟨rfl, Or.inr ?_⟩
    simp only [Bool.not_eq_true] at h2 h3 h4 h6 h7
    simp [IsSupportedFileType, hm, h2, h3, h4, h5, h6, h7, h11]
  rw [if_neg h11]
  have he : enableEngineEbooks = true := by simpa using h11
  by_cases h12 : kind = kindFileEpub
  · rw [if_pos h12]
    exact Or.inr (Or.inr ⟨Call.CreateEngineEpubFromFile, rfl, rfl, by simp, fun _ => he⟩)
  rw [if_neg h12]
  by_cases h13 : kind = kindFileFb2
  · rw [if_pos h13]
    exact Or.inr (Or.inr ⟨Call.CreateEngineFb2FromFile, rfl, rfl, by simp, fun _ => he⟩)
  rw [if_neg h13]
  by_cases h14 : kind = kindFileMobi
  · rw [if_pos h14]
    exact Or.inr (Or.inr ⟨Call.CreateEngineMobiFromFile, rfl, rfl, by simp, fun _ => he⟩)
  rw [if_neg h14]
  by_cases h15 : kind = kindFilePalmDoc
  · rw [if_pos h15]
    exact Or.inr (Or.inr ⟨Call.CreateEnginePdbFromFile, rfl, rfl, by simp, fun _ => he⟩)
  rw [if_neg h15]
  by_cases h16 : kind = kindFileHTML
  · rw [if_pos h16]
    exact Or.inr (Or.inr ⟨Call.CreateEnginePdbFromFile, rfl, rfl, by simp, fun _ => he⟩)
  rw [if_neg h16]
  refine Or.inl ⟨rfl, Or.inr ?_⟩
  simp only [Bool.not_eq_true] at h2 h3 h4 h6 h7
  simp [IsSupportedFileType, hm, h2, h3, h4, h5, h6, h7, h9, h12, h13, h14, h15, h16]

/-- `CreateEngineForKind` calls nothing but constructors and `IsXpsDirectory`. -/
theorem CreateEngineForKind_calls (X : Collaborators σ) (kind : Kind) (path : Path)
    (pwdUI : PasswordUI) (enableChmEngine enableEngineEbooks : Bool) (w : σ) (c : Call)
    (hc : c ∈ (CreateEngineForKind X kind path pwdUI enableChmEngine enableEngineEbooks w).calls) :
    c.isConstructor = true ∨ c = Call.IsXpsDirectory := by
  rcases CreateEngineForKind_shape X kind path pwdUI enableChmEngine enableEngineEbooks with
    ⟨h, _⟩ | h | ⟨c', hc', h, _, _⟩
  · rw [h] at hc
    simp [Pure.pure, Eff.pure] at hc
  · rw [h] at hc
    rcases directoryEngine_calls X path w c hc with h1 | h1 | h1
    · exact Or.inr h1
    · exact Or.inl (by rw [h1]; rfl)
    · exact Or.inl (by rw [h1]; rfl)
  · rw [h, constructorCall_calls X c' hc'] at hc
    simp at hc
    exact Or.inl (by rw [hc]; exact hc')

/-! ## The dispatcher -/

/-- C1 (as amended): for a non-null kind, `CreateEngineForKind` takes the first arm that
applies to the kind in the order PDF, XPS, DjVu, image, directory-specific, comic-archive,
PostScript, CHM (if enabled), plain text, MuPDF for the kinds its predicate accepts, ebook
formats (if enabled), and returns what that one arm constructs, null or not, without
trying a later arm; it returns null without calling anything if no arm applies. -/
theorem CreateEngineForKind_first_applicable (X : Collaborators σ) (kind : Kind) (path : Path)
    (pwdUI : PasswordUI) (enableChmEngine enableEngineEbooks : Bool) (hk : kind ≠ Kind.null) :
    CreateEngineForKind X kind path pwdUI enableChmEngine enableEngineEbooks =
      firstApplicable (dispatchBranches X kind path pwdUI enableChmEngine enableEngineEbooks) := by
  unfold CreateEngineForKind
  rw [if_neg hk]
  simp only [dispatchBranches, leadingBranches, mupdfBranch, ebookBranches, firstApplicable,
    List.cons_append, List.nil_append, directoryEngine, beq_iff_eq]
  cases enableEngineEbooks
  · simp only [Bool.false_and, Bool.not_false, if_true, Bool.false_eq_true, if_false]
  · simp only [Bool.true_and, Bool.not_true, Bool.false_eq_true, if_false, beq_iff_eq]

/-- C1 (witness): a directory that is an XPS folder; the directory arm is the first one that
applies, and the table gives the XPS engine. -/
theorem CreateEngineForKind_first_applicable_witness :
    kindDirectory ≠ Kind.null ∧
      CreateEngineForKind xpsFolder kindDirectory (some "C:/scans") none true true =
        firstApplicable (dispatchBranches xpsFolder kindDirectory (some "C:/scans") none true true) ∧
      (firstApplicable (dispatchBranches xpsFolder kindDirectory (some "C:/scans") none true true)
        0).value = some xpsEngine :=
  ⟨by decide,
    CreateEngineForKind_first_applicable xpsFolder kindDirectory (some "C:/scans") none true true
      (by decide),
    rfl⟩

/-- C1 (counterexample): the MuPDF predicate accepts `kindFileEpub`, ebook engines are
enabled, the MuPDF constructor fails and the EPUB constructor would succeed. Trying the
arms of the spec in order and returning the first non-null result gives the EPUB engine;
`CreateEngineForKind` returns null after the one MuPDF call. (Reading the "PDF" arm of the
spec as "the MuPDF predicate accepts the kind" changes nothing: the EPUB arm still follows
it and still succeeds.) -/
theorem CreateEngineForKind_not_first_non_null :
    (firstNonNull (specBranches epubForMupdf kindFileEpub (some "book.epub") none false true)
        0).value = some epubEngine ∧
      (CreateEngineForKind epubForMupdf kindFileEpub (some "book.epub") none false true 0).value
        = none ∧
      (CreateEngineForKind epubForMupdf kindFileEpub (some "book.epub") none false true 0).calls
        = [Call.CreateEngineMupdfFromFile] :=
  ⟨rfl, rfl, rfl⟩

/-- C8: for `kindDirectory` not claimed by the XPS, DjVu or image predicate, `CreateEngineForKind`
asks `IsXpsDirectory` first. If it holds and the XPS constructor returns a non-null engine, that
engine is returned and `CreateEngineImageDirFromFile` is not called. Otherwise (the XPS
constructor returned null, or the path is not an XPS directory) the value and the world are
those of `CreateEngineImageDirFromFile`, called in the world left by the calls before it. -/
theorem directory_prefers_xps_folder (X : Collaborators σ) (path : Path) (pwdUI : PasswordUI)
    (enableChmEngine enableEngineEbooks : Bool) (w : σ)
    (hx : X.IsEngineXpsSupportedFileType kindDirectory = false)
    (hd : X.IsEngineDjVuSupportedFileType kindDirectory = false)
    (hi : X.IsEngineImageSupportedFileType kindDirectory = false) :
    (∀ e, (IsXpsDirectory X path w).value = true →
        (CreateEngineXpsFromFile X path (IsXpsDirectory X path w).world).value = some e →
        CreateEngineForKind X kindDirectory path pwdUI enableChmEngine enableEngineEbooks w =
          { value := some e,
            world := (CreateEngineXpsFromFile X path (IsXpsDirectory X path w).world).world,
            calls := [Call.IsXpsDirectory, Call.CreateEngineXpsFromFile] } ∧
        Call.CreateEngineImageDirFromFile ∉
          (CreateEngineForKind X kindDirectory path pwdUI enableChmEngine enableEngineEbooks
            w).calls) ∧
      ((IsXpsDirectory X path w).value = true →
        (CreateEngineXpsFromFile X path (IsXpsDirectory X path w).world).value = none →
        CreateEngineForKind X kindDirectory path pwdUI enableChmEngine enableEngineEbooks w =
          { value := (CreateEngineImageDirFromFile X path
              (CreateEngineXpsFromFile X path (IsXpsDirectory X path w).world).world).value,
            world := (CreateEngineImageDirFromFile X path
              (CreateEngineXpsFromFile X path (IsXpsDirectory X path w).world).world).world,
            calls := [Call.IsXpsDirectory, Call.CreateEngineXpsFromFile,
              Call.CreateEngineImageDirFromFile] }) ∧
      ((IsXpsDirectory X path w).value = false →
        CreateEngineForKind X kindDirectory path pwdUI enableChmEngine enableEngineEbooks w =
          { value := (CreateEngineImageDirFromFile X path (IsXpsDirectory X path w).world).value,
            world := (CreateEngineImageDirFromFile X path (IsXpsDirectory X path w).world).world,
            calls := [Call.IsXpsDirectory, Call.CreateEngineImageDirFromFile] }) := by
  rw [CreateEngineForKind_directory X path pwdUI enableChmEngine enableEngineEbooks hx hd hi,
    directoryEngine_run]
  simp only [IsXpsDirectory, CreateEngineXpsFromFile, CreateEngineImageDirFromFile, invoke]
  refine ⟨?_, ?_, ?_⟩
  · intro e h1 h2
    simp [h1, h2]
  · intro h1 h2
    simp [h1, h2]
  · intro h1
    simp [h1]

/-- C8 (witness): an XPS folder that the image-directory constructor could open as well; the XPS
engine is returned after two calls. -/
theorem directory_prefers_xps_folder_witness :
    xpsFolder.IsEngineXpsSupportedFileType kindDirectory = false ∧
      xpsFolder.IsEngineDjVuSupportedFileType kindDirectory = false ∧
      xpsFolder.IsEngineImageSupportedFileType kindDirectory = false ∧
      CreateEngineForKind xpsFolder kindDirectory (some "C:/scans") none true true 0 =
        { value := some xpsEngine, world := 2,
          calls := [Call.IsXpsDirectory, Call.CreateEngineXpsFromFile] } ∧
      Call.CreateEngineImageDirFromFile ∉
        (CreateEngineForKind xpsFolder kindDirectory (some "C:/scans") none true true 0).calls :=
  ⟨rfl, rfl, rfl,
    (directory_prefers_xps_folder xpsFolder (some "C:/scans") none true true 0 rfl rfl rfl).1
      xpsEngine rfl rfl⟩

/-- C9: in `CreateEngineForKind`, for every kind and path: with `enableChmEngine` false
`CreateEngineChmFromFile` is not called; with `enableEngineEbooks` false none of the dedicated
ebook constructors (Epub, Fb2, Mobi, Pdb) is called; with `enableChmEngine` true and no
earlier arm claiming it, `kindFileChm` runs the CHM constructor; with `enableEngineEbooks`
true and no earlier arm claiming the kind, `kindFileEpub`, `kindFileFb2`, `kindFileMobi`,
`kindFilePalmDoc` and `kindFileHTML` run the Epub, Fb2, Mobi, Pdb and Pdb constructor. -/
theorem flags_gate_chm_and_ebooks (X : Collaborators σ) (kind : Kind) (path : Path)
    (pwdUI : PasswordUI) (enableChmEngine enableEngineEbooks : Bool) (w : σ) :
    (enableChmEngine = false → Call.CreateEngineChmFromFile ∉
        (CreateEngineForKind X kind path pwdUI enableChmEngine enableEngineEbooks w).calls) ∧
      (enableEngineEbooks = false → ∀ c ∈ ebookConstructors, c ∉
        (CreateEngineForKind X kind path pwdUI enableChmEngine enableEngineEbooks w).calls) ∧
      (enableChmEngine = true → kind = kindFileChm → claimedBeforeChm X kind = false →
        CreateEngineForKind X kind path pwdUI enableChmEngine enableEngineEbooks =
          CreateEngineChmFromFile X path) ∧
      (enableEngineEbooks = true → claimedBeforeEbooks X kind enableChmEngine = false →
        (kind = kindFileEpub →
          CreateEngineForKind X kind path pwdUI enableChmEngine enableEngineEbooks =
            CreateEngineEpubFromFile X path) ∧
        (kind = kindFileFb2 →
          CreateEngineForKind X kind path pwdUI enableChmEngine enableEngineEbooks =
            CreateEngineFb2FromFile X path) ∧
        (kind = kindFileMobi →
          CreateEngineForKind X kind path pwdUI enableChmEngine enableEngineEbooks =
            CreateEngineMobiFromFile X path) ∧
        (kind = kindFilePalmDoc →
          CreateEngineForKind X kind path pwdUI enableChmEngine enableEngineEbooks =
            CreateEnginePdbFromFile X path) ∧
        (kind = kindFileHTML →
          CreateEngineForKind X kind path pwdUI enableChmEngine enableEngineEbooks =
            CreateEnginePdbFromFile X path)) := by
  have key : ∀ c, c ∈ (CreateEngineForKind X kind path pwdUI enableChmEngine
      enableEngineEbooks w).calls →
      (c = Call.CreateEngineChmFromFile → enableChmEngine = true) ∧
      (c ∈ ebookConstructors → enableEngineEbooks = true) := by
    intro c hc
    rcases CreateEngineForKind_shape X kind path pwdUI enableChmEngine enableEngineEbooks with
      ⟨h, _⟩ | h | ⟨c', hc', h, h1, h2⟩
    · rw [h] at hc
      simp [Pure.pure, Eff.pure] at hc
    · rw [h] at hc
      rcases directoryEngine_calls X path w c hc with e | e | e <;> subst e <;>
        simp [ebookConstructors]
    · rw [h, constructorCall_calls X c' hc'] at hc
      simp at hc
      subst hc
      exact ⟨h1, h2⟩
  refine ⟨?_, ?_, ?_, ?_⟩
  · intro hf hc
    have := (key _ hc).1 rfl
    rw [hf] at this
    exact absurd this (by decide)
  · intro hf c hce hc
    have := (key _ hc).2 hce
    rw [hf] at this
    exact absurd this (by decide)
  · intro ht hkind hb
    subst hkind
    simp only [claimedBeforeChm, Bool.or_eq_false_iff] at hb
    obtain ⟨⟨⟨⟨⟨⟨_, h2⟩, h3⟩, h4⟩, _⟩, h6⟩, h7⟩ := hb
    unfold CreateEngineForKind
    rw [if_neg (by decide)]
    dsimp only
    rw [if_neg (by decide)]
    simp only [h2, h3, h4, h6, h7, ht, Bool.false_eq_true, if_false, Bool.true_and, beq_self_eq_true,
      if_true]
    rw [if_neg (by decide)]
  · intro ht hb
    subst ht
    simp only [claimedBeforeEbooks, claimedBeforeChm, gEnableEpubWithPdfEngine, Bool.true_and,
      Bool.or_eq_false_iff] at hb
    obtain ⟨⟨⟨⟨⟨⟨⟨⟨⟨_, h2⟩, h3⟩, h4⟩, _⟩, h6⟩, h7⟩, _⟩, _⟩, h10⟩ := hb
    refine ⟨?_, ?_, ?_, ?_, ?_⟩ <;>
    · intro hkind
      subst hkind
      unfold CreateEngineForKind
      simp [h2, h3, h4, h6, h7, h10, gEnableEpubWithPdfEngine]

/-- C9 (witness): collaborators whose CHM and ebook constructors all succeed; with the flags off
they are not called, with the flags on `kindFileChm` and `kindFileHTML` reach theirs. -/
theorem flags_gate_chm_and_ebooks_witness :
    Call.CreateEngineChmFromFile ∉
        (CreateEngineForKind ebooks kindFileChm (some "help.chm") none false false 0).calls ∧
      (∀ c ∈ ebookConstructors, c ∉
        (CreateEngineForKind ebooks kindFileEpub (some "book.epub") none false false 0).calls) ∧
      CreateEngineForKind ebooks kindFileChm (some "help.chm") none true false =
        CreateEngineChmFromFile ebooks (some "help.chm") ∧
      CreateEngineForKind ebooks kindFileHTML (some "page.html") none false true =
        CreateEnginePdbFromFile ebooks (some "page.html") :=
  ⟨(flags_gate_chm_and_ebooks ebooks kindFileChm (some "help.chm") none false false 0).1 rfl,
    (flags_gate_chm_and_ebooks ebooks kindFileEpub (some "book.epub") none false false 0).2.1 rfl,
    (flags_gate_chm_and_ebooks ebooks kindFileChm (some "help.chm") none true false 0).2.2.1
      rfl rfl rfl,
    ((flags_gate_chm_and_ebooks ebooks kindFileHTML (some "page.html") none false true 0).2.2.2
      rfl rfl).2.2.2.2 rfl⟩

/-- C10: for a non-null kind that `IsSupportedFileType` accepts, `CreateEngineForKind` ends with
a call of an engine constructor and returns the value (and the world) of that call, whatever
the family predicates and the two flags are (`gEnableEpubWithPdfEngine` is true). -/
theorem supported_kind_reaches_constructor (X : Collaborators σ) (kind : Kind) (path : Path)
    (pwdUI : PasswordUI) (enableChmEngine enableEngineEbooks : Bool) (w : σ)
    (hk : kind ≠ Kind.null) (hs : IsSupportedFileType X kind enableEngineEbooks = true) :
    ∃ c pre w0, c.isConstructor = true ∧
      (CreateEngineForKind X kind path pwdUI enableChmEngine enableEngineEbooks w).calls
        = pre ++ [c] ∧
      (CreateEngineForKind X kind path pwdUI enableChmEngine enableEngineEbooks w).value
        = (constructorCall X c path pwdUI w0).value ∧
      (CreateEngineForKind X kind path pwdUI enableChmEngine enableEngineEbooks w).world
        = (constructorCall X c path pwdUI w0).world := by
  rcases CreateEngineForKind_shape X kind path pwdUI enableChmEngine enableEngineEbooks with
    ⟨_, h | h⟩ | h | ⟨c, hc, h, _, _⟩
  · exact absurd h hk
  · rw [h] at hs; exact absurd hs (by decide)
  · rw [h]; exact directoryEngine_last X path pwdUI w
  · rw [h]; exact constructorCall_last X c hc path pwdUI w

/-- C10 (witness): `kindFileTxt` with ebook engines enabled. -/
theorem supported_kind_reaches_constructor_witness :
    kindFileTxt ≠ Kind.null ∧ IsSupportedFileType quiet kindFileTxt true = true ∧
      ∃ c pre w0, c.isConstructor = true ∧
        (CreateEngineForKind quiet kindFileTxt (some "notes.txt") none false true 0).calls
          = pre ++ [c] ∧
        (CreateEngineForKind quiet kindFileTxt (some "notes.txt") none false true 0).value
          = (constructorCall quiet c (some "notes.txt") none w0).value ∧
        (CreateEngineForKind quiet kindFileTxt (some "notes.txt") none false true 0).world
          = (constructorCall quiet c (some "notes.txt") none w0).world :=
  ⟨by decide, rfl,
    supported_kind_reaches_constructor quiet kindFileTxt (some "notes.txt") none false true 0
      (by decide) rfl⟩

/-! ## Top-level engine creation -/

/-- The two passes of `CreateEngine`, by cases on the observation points. -/
theorem CreateEngineBody_run (X : Collaborators σ) (path : Path) (pwdUI : PasswordUI)
    (enableChmEngine enableEngineEbooks : Bool) (w : σ) :
    CreateEngineBody X path pwdUI enableChmEngine enableEngineEbooks w =
      if (firstPass X path pwdUI enableChmEngine enableEngineEbooks w).value.isSome = true then
        { value := (firstPass X path pwdUI enableChmEngine enableEngineEbooks w).value,
          world := (firstPass X path pwdUI enableChmEngine enableEngineEbooks w).world,
          calls := Call.GuessFileTypeFromName ::
            (firstPass X path pwdUI enableChmEngine enableEngineEbooks w).calls }
      else if (nameSniff X path w).value ≠
          (contentSniff X path pwdUI enableChmEngine enableEngineEbooks w).value then
        { value := (secondPass X path pwdUI enableChmEngine enableEngineEbooks w).value,
          world := (secondPass X path pwdUI enableChmEngine enableEngineEbooks w).world,
          calls := Call.GuessFileTypeFromName ::
            ((firstPass X path pwdUI enableChmEngine enableEngineEbooks w).calls ++
              Call.GuessFileTypeFromContent ::
                (secondPass X path pwdUI enableChmEngine enableEngineEbooks w).calls) }
      else
        { value := (firstPass X path pwdUI enableChmEngine enableEngineEbooks w).value,
          world := (contentSniff X path pwdUI enableChmEngine enableEngineEbooks w).world,
          calls := Call.GuessFileTypeFromName ::
            ((firstPass X path pwdUI enableChmEngine enableEngineEbooks w).calls ++
              [Call.GuessFileTypeFromContent]) } := by
  by_cases h1 : (firstPass X path pwdUI enableChmEngine enableEngineEbooks w).value.isSome = true
  · rw [if_pos h1]
    simp only [firstPass, nameSniff, GuessFileTypeFromName, invoke] at h1
    simp [CreateEngineBody, Bind.bind, Eff.bind, Pure.pure, Eff.pure, firstPass, nameSniff,
      GuessFileTypeFromName, invoke, h1]
  · rw [if_neg h1]
    by_cases h2 : (nameSniff X path w).value ≠
        (contentSniff X path pwdUI enableChmEngine enableEngineEbooks w).value
    · rw [if_pos h2]
      simp only [firstPass, nameSniff, GuessFileTypeFromName, invoke, contentSniff,
        GuessFileTypeFromContent] at h1 h2
      simp [CreateEngineBody, Bind.bind, Eff.bind, Pure.pure, Eff.pure, firstPass, nameSniff,
        GuessFileTypeFromName, invoke, contentSniff, secondPass, GuessFileTypeFromContent, h1, h2]
    · rw [if_neg h2]
      simp only [firstPass, nameSniff, GuessFileTypeFromName, invoke, contentSniff,
        GuessFileTypeFromContent] at h1 h2
      simp [CreateEngineBody, Bind.bind, Eff.bind, Pure.pure, Eff.pure, firstPass, nameSniff,
        GuessFileTypeFromName, invoke, contentSniff, secondPass, GuessFileTypeFromContent, h1, h2]

/-- C2: for a non-null path, if the dispatch on the kind guessed from the file name yields a
non-null engine, `CreateEngine` returns that engine, in the world the dispatch left, after the
name sniff and the calls of that dispatch only: `GuessFileTypeFromContent` is not called. -/
theorem CreateEngine_by_name (X : Collaborators σ) (p : String) (pwdUI : PasswordUI)
    (enableChmEngine enableEngineEbooks : Bool) (w : σ) (e : EngineBase)
    (h : (firstPass X (some p) pwdUI enableChmEngine enableEngineEbooks w).value = some e) :
    ∃ r, CreateEngine X (some p) pwdUI enableChmEngine enableEngineEbooks w = some r ∧
      r.value = some e ∧
      r.world = (firstPass X (some p) pwdUI enableChmEngine enableEngineEbooks w).world ∧
      r.calls = Call.GuessFileTypeFromName ::
        (firstPass X (some p) pwdUI enableChmEngine enableEngineEbooks w).calls ∧
      Call.GuessFileTypeFromContent ∉ r.calls := by
  refine ⟨CreateEngineBody X (some p) pwdUI enableChmEngine enableEngineEbooks w, rfl, ?_⟩
  rw [CreateEngineBody_run, if_pos (by rw [h]; rfl)]
  refine ⟨h, rfl, rfl, ?_⟩
  intro hc
  rcases List.mem_cons.mp hc with hc | hc
  · exact absurd hc (by decide)
  · rcases CreateEngineForKind_calls X _ _ _ _ _ _ _ hc with h1 | h1
    · exact absurd h1 (by decide)
    · exact absurd h1 (by decide)

/-- C2 (witness): the name sniff answers `kindFilePDF` and the MuPDF constructor succeeds. -/
theorem CreateEngine_by_name_witness :
    (firstPass pdfByName (some "report.pdf") none false false 0).value = some mupdfEngine ∧
      ∃ r, CreateEngine pdfByName (some "report.pdf") none false false 0 = some r ∧
        r.value = some mupdfEngine ∧
        r.world = (firstPass pdfByName (some "report.pdf") none false false 0).world ∧
        r.calls = Call.GuessFileTypeFromName ::
          (firstPass pdfByName (some "report.pdf") none false false 0).calls ∧
        Call.GuessFileTypeFromContent ∉ r.calls :=
  ⟨rfl, CreateEngine_by_name pdfByName "report.pdf" none false false 0 mupdfEngine rfl⟩

/-- C3: for a non-null path, if the dispatch on the name-based kind yields null, the
content-based kind differs from the name-based kind and the dispatch on the content-based
kind yields a non-null engine, `CreateEngine` returns that engine. -/
theorem CreateEngine_by_content (X : Collaborators σ) (p : String) (pwdUI : PasswordUI)
    (enableChmEngine enableEngineEbooks : Bool) (w : σ) (e : EngineBase)
    (h1 : (firstPass X (some p) pwdUI enableChmEngine enableEngineEbooks w).value = none)
    (h2 : (contentSniff X (some p) pwdUI enableChmEngine enableEngineEbooks w).value ≠
      (nameSniff X (some p) w).value)
    (h3 : (secondPass X (some p) pwdUI enableChmEngine enableEngineEbooks w).value = some e) :
    ∃ r, CreateEngine X (some p) pwdUI enableChmEngine enableEngineEbooks w = some r ∧
      r.value = some e ∧
      r.world = (secondPass X (some p) pwdUI enableChmEngine enableEngineEbooks w).world := by
  refine ⟨CreateEngineBody X (some p) pwdUI enableChmEngine enableEngineEbooks w, rfl, ?_⟩
  rw [CreateEngineBody_run, if_neg (by rw [h1]; decide), if_pos (Ne.symm h2)]
  exact ⟨h3, rfl⟩

/-- C3 (witness): the name says text, whose constructor fails; the content says PDF, whose
constructor succeeds. -/
theorem CreateEngine_by_content_witness :
    ∃ r, CreateEngine pdfByContent (some "report.txt") none false false 0 = some r ∧
      r.value = some mupdfEngine ∧
      r.world = (secondPass pdfByContent (some "report.txt") none false false 0).world :=
  CreateEngine_by_content pdfByContent "report.txt" none false false 0 mupdfEngine rfl
    (by decide) rfl

/-- C4: for a non-null path, `CreateEngine` returns null when the dispatch on the name-based kind
yields null and either the content-based kind equals the name-based kind or the dispatch on
the content-based kind yields null too; when the kinds are equal there is no second dispatch:
the calls end with the content sniff. -/
theorem CreateEngine_null (X : Collaborators σ) (p : String) (pwdUI : PasswordUI)
    (enableChmEngine enableEngineEbooks : Bool) (w : σ)
    (h1 : (firstPass X (some p) pwdUI enableChmEngine enableEngineEbooks w).value = none)
    (h2 : (contentSniff X (some p) pwdUI enableChmEngine enableEngineEbooks w).value =
        (nameSniff X (some p) w).value ∨
      (secondPass X (some p) pwdUI enableChmEngine enableEngineEbooks w).value = none) :
    ∃ r, CreateEngine X (some p) pwdUI enableChmEngine enableEngineEbooks w = some r ∧
      r.value = none ∧
      ((contentSniff X (some p) pwdUI enableChmEngine enableEngineEbooks w).value =
          (nameSniff X (some p) w).value →
        r.world = (contentSniff X (some p) pwdUI enableChmEngine enableEngineEbooks w).world ∧
        r.calls = Call.GuessFileTypeFromName ::
          ((firstPass X (some p) pwdUI enableChmEngine enableEngineEbooks w).calls ++
            [Call.GuessFileTypeFromContent])) := by
  refine ⟨CreateEngineBody X (some p) pwdUI enableChmEngine enableEngineEbooks w, rfl, ?_⟩
  rw [CreateEngineBody_run, if_neg (by rw [h1]; decide)]
  by_cases hk : (nameSniff X (some p) w).value ≠
      (contentSniff X (some p) pwdUI enableChmEngine enableEngineEbooks w).value
  · rw [if_pos hk]
    rcases h2 with h2 | h2
    · exact absurd h2.symm hk
    · exact ⟨h2, fun h => absurd h.symm hk⟩
  · rw [if_neg hk]
    exact ⟨h1, fun _ => ⟨rfl, rfl⟩⟩

/-- C4 (witness): both sniffs answer `kindFileTxt` and the text constructor fails; and the name
says text, the content says PDF, and both constructors fail. -/
theorem CreateEngine_null_witness :
    (∃ r, CreateEngine txtTwice (some "notes.txt") none false false 0 = some r ∧
      r.value = none ∧
      ((contentSniff txtTwice (some "notes.txt") none false false 0).value =
          (nameSniff txtTwice (some "notes.txt") 0).value →
        r.world = (contentSniff txtTwice (some "notes.txt") none false false 0).world ∧
        r.calls = Call.GuessFileTypeFromName ::
          ((firstPass txtTwice (some "notes.txt") none false false 0).calls ++
            [Call.GuessFileTypeFromContent]))) ∧
    (∃ r, CreateEngine txtThenPdf (some "notes.txt") none false false 0 = some r ∧
      r.value = none ∧
      ((contentSniff txtThenPdf (some "notes.txt") none false false 0).value =
          (nameSniff txtThenPdf (some "notes.txt") 0).value →
        r.world = (contentSniff txtThenPdf (some "notes.txt") none false false 0).world ∧
        r.calls = Call.GuessFileTypeFromName ::
          ((firstPass txtThenPdf (some "notes.txt") none false false 0).calls ++
            [Call.GuessFileTypeFromContent]))) :=
  ⟨CreateEngine_null txtTwice "notes.txt" none false false 0 rfl (Or.inl rfl),
    CreateEngine_null txtThenPdf "notes.txt" none false false 0 rfl (Or.inr rfl)⟩

end EngineCreate
